import Mathlib

/-!
Shallow embedding of the `pre-commit` odev command
(`src/commands/pre-commit.py`), a linear workflow over external
collaborators: clone the repository, resolve the Odoo version, run the
Copier templating step guarded by a stash, install pre-commit hooks and
commit the resulting changes.

The workflow is modelled as a trace-producing interpreter: an `Env`
captures every external input that determines a run (command arguments,
database record, filesystem state, outcomes of the external tools) and
`run`/`fullRun` return the list of observable external calls (`Event`)
together with the final outcome (`Option Err`, `none` on success).
-/

namespace PreCommitCmd

/-- Source constant `PRE_COMMIT_REPOSITORY`: the repository to clone in
order to install pre-commit hooks. -/
def PRE_COMMIT_REPOSITORY : String := "odoo-ps/psbe-ps-tech-tools"

/-- Source constant `COPIER_ANSWERS_FILE`: the name of the file containing
the answers to the Copier prompts. -/
def COPIER_ANSWERS_FILE : String := ".copier-answers.yml"

/-- A database record as the command sees it: `name`, optional stored
`version` (Python-falsy when empty), optional linked repository
(`repository.full_name` when the link exists). -/
structure Database where
  name : String
  version : Option String
  repository : Option String
deriving Repr, DecidableEq

/-- Everything external that determines one run of the command:
the CLI arguments, the database record, the state of the repository on
disk, and the outcome of each external tool invocation. -/
structure Env where
  /-- `self.args.repository` (Python-falsy when absent or empty). -/
  argsRepository : Option String
  /-- The database selected by the `database` argument, when supplied. -/
  database : Option Database
  /-- Whether the repository was already cloned before the run started
  (`GitConnector.clone` is a no-op in that case). -/
  existsBeforeRun : Bool
  /-- `self._repository.path`. -/
  repoPath : String
  /-- Truthiness of `self._repository.repository`, the underlying
  version-control handle. -/
  repoHandlePresent : Bool
  /-- Whether `.copier-answers.yml` is present at the repository root once
  the clone step has run (pre-existing local state when already cloned,
  content brought in by the clone otherwise). -/
  answersFileAfterClone : Bool
  /-- Whether the interactive `run_copy` templating call leaves an answers
  file behind (written by the templating engine, not by this workflow). -/
  copyWritesAnswersFile : Bool
  /-- Result of `OdoobinProcess.version_from_addons(self._repository.path)`
  (Python-falsy when `none` or empty). -/
  versionFromAddons : Option String
  /-- The global `LOG_LEVEL` from `odev.common.logging`. -/
  logLevel : String
  /-- Whether entering the `Stash` context raises. -/
  stashAcquireFails : Bool
  /-- Whether the `run_copy` / `run_update` templating call raises. -/
  templatingFails : Bool
  /-- Whether `pre-commit install` exits non-zero. -/
  hookInstallFails : Bool
  /-- Captured stderr of the failed hook-install invocation. -/
  hookStderr : String
  /-- Whether `git commit` raises `GitCommandError`. -/
  commitFails : Bool
  /-- Captured stderr of the failed commit. -/
  commitStderr : String
deriving Repr, DecidableEq

/-- Python truthiness of an optional string: `None` and `""` are falsy. -/
def pyTruthy : Option String → Bool
  | none => false
  | some s => s != ""

/-- The parameters shared by both templating calls — the `copier_params`
dict built in `_copy_config`. The copier flag permitting template scripts
to run is named `allowScripts` here. -/
structure CopierParams where
  dst_path : String
  quiet : Bool
  overwrite : Bool
  data : List (String × String)
  allowScripts : Bool
deriving Repr, DecidableEq

/-- An observable call to an external collaborator. -/
inductive Event where
  | clone : Event
  | stashAcquire : Event
  | stashRelease : Event
  | runCopy (src : String) (params : CopierParams) (defaults : Bool) : Event
  | runUpdate (params : CopierParams) (answers_file : String) (defaults : Bool) : Event
  | installHooksCall (cmd : String) : Event
  | gitAdd (path : String) : Event
  | gitCommit (message : String) : Event
deriving Repr, DecidableEq

/-- Whether an event is one of the two templating calls. -/
def Event.isTemplating : Event → Bool
  | .runCopy _ _ _ => true
  | .runUpdate _ _ _ => true
  | _ => false

/-- Whether an event is the interactive `run_copy` templating call. -/
def Event.isRunCopy : Event → Bool
  | .runCopy _ _ _ => true
  | _ => false

/-- Whether an event is the non-interactive `run_update` templating call. -/
def Event.isRunUpdate : Event → Bool
  | .runUpdate _ _ _ => true
  | _ => false

/-- Whether an event is the hook-install invocation. -/
def Event.isHookInstall : Event → Bool
  | .installHooksCall _ => true
  | _ => false

/-- Whether an event mutates the git history (`git add` or `git commit`). -/
def Event.isGitWrite : Event → Bool
  | .gitAdd _ => true
  | .gitCommit _ => true
  | _ => false

/-- Whether an event belongs to the stash scope machinery. -/
def Event.isStash : Event → Bool
  | .stashAcquire => true
  | .stashRelease => true
  | _ => false

/-- Outcome of a run: `commandError` models `self.error(...)` being raised,
`externalFailure` models an exception from a third-party call propagating
uncaught through `run()`, `assertionFailure` models the
`assert self._repository.repository` in `_commit_changes` failing. -/
inductive Err where
  | commandError (message : String) : Err
  | externalFailure (origin : String) : Err
  | assertionFailure : Err
deriving Repr, DecidableEq

/-- Whether an outcome is a failure of the `_commit_changes` assertion. -/
def isAssertionFailure : Option Err → Bool
  | some Err.assertionFailure => true
  | _ => false

/-- The name handed to `GitConnector` in `__init__`:
`self._database.repository.full_name if self._database.repository else
self.args.repository`. The displayed `name` attribute of the connector is
modelled by this same string. -/
def connectorName (e : Env) : String :=
  match e.database with
  | some db =>
    match db.repository with
    | some fullName => fullName
    | none => e.argsRepository.getD ""
  | none => e.argsRepository.getD ""

/-- Version resolution in `run()`: prefer the stored version of the
database when the database is present and its version truthy, otherwise
scan the repository contents (`OdoobinProcess.version_from_addons`). -/
def resolveVersion (e : Env) : Option String :=
  match e.database with
  | some db => if pyTruthy db.version then db.version else e.versionFromAddons
  | none => e.versionFromAddons

/-- `_is_fresh_install`: `not self._repository.exists or not
(self._repository.path / COPIER_ANSWERS_FILE).is_file()`, as a function of
the repository state at the moment of the call. -/
def is_fresh_install (repoExistsNow : Bool) (answersFileNow : Bool) : Bool :=
  !repoExistsNow || !answersFileNow

/-- `run()` calls `self._repository.clone()` first, so at every later
point of the run the repository exists locally (the clone is idempotent:
a no-op when `existsBeforeRun` is already true). -/
def existsAfterClone (_ : Env) : Bool := true

/-- The `copier_params` dict of `_copy_config`, shared by both templating
branches: destination is the repository path, quiet unless the log level
is DEBUG, overwrite enabled, data mapping "odoo_version" to
`str(self.version)`, and the copier flag permitting template scripts enabled. -/
def copier_params (e : Env) (version : String) : CopierParams :=
  { dst_path := e.repoPath
    quiet := e.logLevel != "DEBUG"
    overwrite := true
    data := [("odoo_version", version)]
    allowScripts := true }

/-- Error message raised by `_copy_config` when the version-control handle
is absent. -/
def noRepoMsg (e : Env) : String :=
  "Ignoring non-existing repository \x27" ++ connectorName e ++ "\x27"

/-- `_copy_config`: abort when the version-control handle is absent, else
run the templating call inside the `Stash` scope — `run_copy` from the
remote template with `defaults=False` on a fresh install, `run_update`
driven by the answers file with `defaults=True` otherwise. The stash is
released on every exit path of the scope, so `stashRelease` follows the
templating call even when that call raises. -/
def copy_config (e : Env) (version : String) : List Event × Option Err :=
  if !e.repoHandlePresent then
    ([], some (Err.commandError (noRepoMsg e)))
  else if e.stashAcquireFails then
    ([], some (Err.externalFailure "stash"))
  else
    let p := copier_params e version
    let call :=
      if is_fresh_install (existsAfterClone e) e.answersFileAfterClone then
        Event.runCopy ("gh:" ++ PRE_COMMIT_REPOSITORY) p false
      else
        Event.runUpdate p COPIER_ANSWERS_FILE true
    ([Event.stashAcquire, call, Event.stashRelease],
     if e.templatingFails then some (Err.externalFailure "templating") else none)

/-- Modelled from the spec: the answers file is a "marker file inside the
repository recording prior templating choices", "written by the templating
engine, not by this workflow" (spec sections 3 and 6). The non-interactive
update is driven by the existing answers file and keeps it in place; after
a fresh interactive copy its presence depends on whether the template
writes it (`copyWritesAnswersFile`). This models the repository state
observed by every `_is_fresh_install` call made after `_copy_config`. -/
def answersAfterTemplating (e : Env) : Bool :=
  if is_fresh_install (existsAfterClone e) e.answersFileAfterClone then
    e.copyWritesAnswersFile
  else
    true

/-- The shell command run by `_install_hooks`, with `GIT_CONFIG`
redirected to a null path for the duration of the invocation. -/
def hookCommand : String := "GIT_CONFIG=/dev/null pre-commit install"

/-- `_install_hooks`: run the hook installer; on `CalledProcessError`
raise a command error carrying the captured stderr of the tool. -/
def install_hooks (e : Env) : List Event × Option Err :=
  ([Event.installHooksCall hookCommand],
   if e.hookInstallFails then
     some (Err.commandError ("Failed to install pre-commit hooks:\n" ++ e.hookStderr))
   else
     none)

/-- `_commit_message`, after `string.normalize_indent` (an odev utility
outside this file that strips the common leading indentation of the
f-string; the message is modelled directly in its normalized form). -/
def commit_message (fresh : Bool) (version : String) : String :=
  (if fresh then "[ADD] Install" else "[IMP] Update") ++
  " `pre-commit` configuration\n\n" ++
  "Added automatically with [odev](https://github.com/odoo-odev/odev) using configuration templates\n" ++
  "from [pre-commit-template](https://github.com/odoo-ps/psbe-ps-tech-tools/tree/pre-commit-template).\n\n" ++
  "Odoo version: " ++ version ++ "\n" ++
  "See: [pre-commit](https://github.com/odoo-ps/psbe-process/wiki/Development-common-practices#pre-commit)"

/-- `_commit_changes`: assert the version-control handle, stage everything
and commit with the generated message; a `GitCommandError` becomes a
command error carrying the captured stderr. `_commit_message` calls
`_is_fresh_install` again at this point, so the verb reflects the answers
file state after templating. -/
def commit_changes (e : Env) (version : String) : List Event × Option Err :=
  if !e.repoHandlePresent then
    ([], some Err.assertionFailure)
  else
    let msg := commit_message
      (is_fresh_install (existsAfterClone e) (answersAfterTemplating e)) version
    if e.commitFails then
      ([Event.gitAdd ".", Event.gitCommit msg],
       some (Err.commandError ("Failed to commit changes:\n" ++ e.commitStderr)))
    else
      ([Event.gitAdd ".", Event.gitCommit msg], none)

/-- Error message raised by `run()` when no version can be determined. -/
def noVersionMsg (e : Env) : String :=
  "Could not determine Odoo version from repository \x27" ++ connectorName e ++ "\x27"

/-- `run()`: clone, resolve the version (abort when falsy), then
`_copy_config`, `_install_hooks` and `_commit_changes` in order, each
aborting the run on failure. -/
def run (e : Env) : List Event × Option Err :=
  match resolveVersion e with
  | none => ([Event.clone], some (Err.commandError (noVersionMsg e)))
  | some v =>
    if v == "" then
      ([Event.clone], some (Err.commandError (noVersionMsg e)))
    else
      match copy_config e v with
      | (ev1, some err) => (Event.clone :: ev1, some err)
      | (ev1, none) =>
        match install_hooks e with
        | (ev2, some err) => (Event.clone :: (ev1 ++ ev2), some err)
        | (ev2, none) =>
          match commit_changes e v with
          | (ev3, r) => (Event.clone :: (ev1 ++ ev2 ++ ev3), r)

/-- Modelled from the spec: the `_exclusive_arguments` declaration in the
source names the pair `("database", "repository")`, but the machinery
enforcing it lives in the odev base command classes, outside this file.
The spec states that exactly one of database and explicit repository is
supplied (mutually exclusive selection), failing with a configuration
error otherwise. -/
def exactlyOneSelector (e : Env) : Bool :=
  (e.database.isSome && !(pyTruthy e.argsRepository)) ||
  (e.database.isNone && pyTruthy e.argsRepository)

/-- Argument validation before `run()`: the base-class exclusivity check
(modelled from the spec, see `exactlyOneSelector`), then the `__init__`
check `if not self.args.repository and not self._database.repository`. -/
def initCheck (e : Env) : Option Err :=
  if !(exactlyOneSelector e) then
    some (Err.commandError "The database and repository arguments are mutually exclusive")
  else
    match e.database with
    | some db =>
      if !(pyTruthy e.argsRepository) && db.repository.isNone then
        some (Err.commandError ("No repository linked to database \x27" ++ db.name ++ "\x27"))
      else
        none
    | none => none

/-- A full invocation of the command: argument validation, then `run()`;
a validation failure produces no external call at all. -/
def fullRun (e : Env) : List Event × Option Err :=
  match initCheck e with
  | some err => ([], some err)
  | none => run e

/-- The templating call `_copy_config` makes once the stash is held. -/
def templCall (e : Env) (v : String) : Event :=
  if is_fresh_install (existsAfterClone e) e.answersFileAfterClone then
    Event.runCopy ("gh:" ++ PRE_COMMIT_REPOSITORY) (copier_params e v) false
  else
    Event.runUpdate (copier_params e v) COPIER_ANSWERS_FILE true

/-- The events of a run after the stash scope closes. -/
def postStashTrace (e : Env) (v : String) : List Event :=
  if e.templatingFails then []
  else
    Event.installHooksCall hookCommand ::
      (if e.hookInstallFails then []
       else [Event.gitAdd ".",
             Event.gitCommit (commit_message
               (is_fresh_install (existsAfterClone e) (answersAfterTemplating e)) v)])

/-- The outcome of a run that reached the templating step. -/
def templOutcome (e : Env) : Option Err :=
  if e.templatingFails then some (Err.externalFailure "templating")
  else if e.hookInstallFails then
    some (Err.commandError ("Failed to install pre-commit hooks:\n" ++ e.hookStderr))
  else if e.commitFails then
    some (Err.commandError ("Failed to commit changes:\n" ++ e.commitStderr))
  else none

/-- A baseline environment: repository selected by the explicit argument,
already cloned with an answers file at its root, version 17.0 found in the
addons, every external tool succeeding. -/
def baseEnv : Env where
  argsRepository := some "odoo-ps/psbe-client"
  database := none
  existsBeforeRun := true
  repoPath := "/home/dev/repositories/psbe-client"
  repoHandlePresent := true
  answersFileAfterClone := true
  copyWritesAnswersFile := true
  versionFromAddons := some "17.0"
  logLevel := "INFO"
  stashAcquireFails := false
  templatingFails := false
  hookInstallFails := false
  hookStderr := ""
  commitFails := false
  commitStderr := ""

/-- A repository that is being freshly cloned and contains no answers
file; the templating engine writes one during the interactive copy. -/
def c1Env : Env := { baseEnv with existsBeforeRun := false, answersFileAfterClone := false }

/-- No stored database version and no version marker in the addons. -/
def c2Env : Env := { baseEnv with versionFromAddons := none }

/-- Acquiring the stash fails. -/
def c3Env : Env := { baseEnv with stashAcquireFails := true }

/-- Both a database and an explicit repository argument are supplied. -/
def c4Env : Env :=
  { baseEnv with
    database := some { name := "prod-db", version := some "17.0",
                       repository := some "odoo-ps/psbe-client" } }

/-- A repository that is not yet cloned, whose clone brings a committed
answers file along. -/
def c5Env : Env := { baseEnv with existsBeforeRun := false }

/-- An already-cloned repository without an answers file. -/
def c5aEnv : Env := { baseEnv with answersFileAfterClone := false }

/-- The hook installer fails with captured stderr. -/
def c7Env : Env :=
  { baseEnv with
    hookInstallFails := true
    hookStderr := "An error occurred while installing hooks" }

/-- The templating call raises inside the stash scope. -/
def c8Env : Env := { baseEnv with templatingFails := true }

/-- Debug logging, so the templating calls run with quiet disabled. -/
def c9Env : Env := { baseEnv with logLevel := "DEBUG" }

/-- The version-control handle is absent. -/
def c10Env : Env := { baseEnv with repoHandlePresent := false }

set_option maxRecDepth 12000

theorem run_version_falsy (e : Env) (h : pyTruthy (resolveVersion e) = false) :
    run e = ([Event.clone], some (Err.commandError (noVersionMsg e))) := by
  unfold run
  cases hv : resolveVersion e with
  | none => rfl
  | some v =>
    rw [hv] at h
    simp [pyTruthy] at h
    subst h
    rfl

theorem run_no_handle (e : Env) (v : String) (hv : resolveVersion e = some v)
    (hne : v ≠ "") (hr : e.repoHandlePresent = false) :
    run e = ([Event.clone], some (Err.commandError (noRepoMsg e))) := by
  unfold run
  rw [hv]
  simp [hne, copy_config, hr]

theorem run_stash_fails (e : Env) (v : String) (hv : resolveVersion e = some v)
    (hne : v ≠ "") (hr : e.repoHandlePresent = true) (hs : e.stashAcquireFails = true) :
    run e = ([Event.clone], some (Err.externalFailure "stash")) := by
  unfold run
  rw [hv]
  simp [hne, copy_config, hr, hs]

theorem run_reach_templating (e : Env) (v : String) (hv : resolveVersion e = some v)
    (hne : v ≠ "") (hr : e.repoHandlePresent = true) (hs : e.stashAcquireFails = false) :
    run e = (Event.clone :: Event.stashAcquire :: templCall e v :: Event.stashRelease ::
      postStashTrace e v, templOutcome e) := by
  unfold run
  rw [hv]
  by_cases ht : e.templatingFails
  · simp [hne, copy_config, hr, hs, ht, templCall, postStashTrace, templOutcome]
  · by_cases hh : e.hookInstallFails
    · simp [hne, copy_config, install_hooks, hr, hs, ht, hh, templCall, postStashTrace,
        templOutcome]
    · by_cases hc : e.commitFails
      · simp [hne, copy_config, install_hooks, commit_changes, hr, hs, ht, hh, hc,
          templCall, postStashTrace, templOutcome]
      · simp [hne, copy_config, install_hooks, commit_changes, hr, hs, ht, hh, hc,
          templCall, postStashTrace, templOutcome]

theorem postStash_only_hook_and_git (e : Env) (v : String) :
    ∀ ev ∈ postStashTrace e v,
      ev.isTemplating = false ∧ ev.isStash = false ∧
      (ev.isHookInstall = true ∨ ev.isGitWrite = true) := by
  unfold postStashTrace
  by_cases ht : e.templatingFails
  · simp [ht]
  · by_cases hh : e.hookInstallFails
    · simp [ht, hh, Event.isTemplating, Event.isStash, Event.isHookInstall]
    · simp [ht, hh, Event.isTemplating, Event.isStash, Event.isHookInstall, Event.isGitWrite]

theorem not_runCopy_of_not_templating (ev : Event) (h : ev.isTemplating = false) :
    ev.isRunCopy = false := by
  cases ev <;> first | rfl | exact absurd h (by simp [Event.isTemplating])

theorem not_runUpdate_of_not_templating (ev : Event) (h : ev.isTemplating = false) :
    ev.isRunUpdate = false := by
  cases ev <;> first | rfl | exact absurd h (by simp [Event.isTemplating])

theorem leading_append_right (x s t : String) (h : ∃ r, s = x ++ r) :
    ∃ r, s ++ t = x ++ r := by
  obtain ⟨r, hr⟩ := h
  exact ⟨r ++ t, by rw [hr, String.append_assoc]⟩

theorem commit_message_head (fresh : Bool) (v : String) :
    ∃ rest, commit_message fresh v =
      (if fresh then "[ADD] Install" else "[IMP] Update") ++ rest := by
  unfold commit_message
  apply leading_append_right
  apply leading_append_right
  apply leading_append_right
  apply leading_append_right
  apply leading_append_right
  apply leading_append_right
  exact ⟨_, rfl⟩

/-- Claim C1: the spec asserts that on a freshly cloned repository with
version 17.0 the run performs the interactive copy with data
odoo_version = 17.0, then installs hooks, then commits with a message
starting "[ADD] Install `pre-commit` configuration", the
FreshInstall/Update state being determined once per run. The code violates
the commit-verb and single-determination parts: `_is_fresh_install` is
re-evaluated inside `_commit_message`, after the templating engine has
written the answers file, so the state flips to Update mid-run and the
commit message starts with "[IMP] Update" instead. This theorem evaluates
the model at that failing input: the call sequence and the
"Odoo version: 17.0" part hold, the verb does not. -/
theorem C1_fresh_install_commit_verb_flips :
    c1Env.existsBeforeRun = false ∧
    c1Env.answersFileAfterClone = false ∧
    resolveVersion c1Env = some "17.0" ∧
    is_fresh_install (existsAfterClone c1Env) c1Env.answersFileAfterClone = true ∧
    (run c1Env).1 =
      [Event.clone, Event.stashAcquire,
       Event.runCopy "gh:odoo-ps/psbe-ps-tech-tools"
         { dst_path := c1Env.repoPath, quiet := true, overwrite := true,
           data := [("odoo_version", "17.0")], allowScripts := true } false,
       Event.stashRelease,
       Event.installHooksCall hookCommand,
       Event.gitAdd ".",
       Event.gitCommit (commit_message false "17.0")] ∧
    (run c1Env).2 = none ∧
    is_fresh_install (existsAfterClone c1Env) (answersAfterTemplating c1Env) = false ∧
    (∃ p q, commit_message false "17.0" = p ++ ("Odoo version: 17.0" ++ q)) ∧
    (∃ rest, commit_message false "17.0" = "[IMP] Update" ++ rest) ∧
    ¬ ∃ rest, commit_message false "17.0" = "[ADD] Install" ++ rest := by
  refine ⟨rfl, rfl, rfl, rfl, by rfl, rfl, rfl, ?_, ?_, ?_⟩
  · exact ⟨"[IMP] Update `pre-commit` configuration\n\nAdded automatically with [odev](https://github.com/odoo-odev/odev) using configuration templates\nfrom [pre-commit-template](https://github.com/odoo-ps/psbe-ps-tech-tools/tree/pre-commit-template).\n\n",
      "\nSee: [pre-commit](https://github.com/odoo-ps/psbe-process/wiki/Development-common-practices#pre-commit)",
      by rfl⟩
  · exact ⟨" `pre-commit` configuration\n\nAdded automatically with [odev](https://github.com/odoo-odev/odev) using configuration templates\nfrom [pre-commit-template](https://github.com/odoo-ps/psbe-ps-tech-tools/tree/pre-commit-template).\n\nOdoo version: 17.0\nSee: [pre-commit](https://github.com/odoo-ps/psbe-process/wiki/Development-common-practices#pre-commit)",
      by rfl⟩
  · rintro ⟨rest, h⟩
    have h2 := congrArg String.data h
    rw [String.data_append] at h2
    simp only [commit_message, String.data_append, Bool.false_eq_true, if_false] at h2
    have h3 := congrArg (fun l => l.get? 1) h2
    simp at h3

/-- Claim C2: whenever version resolution comes up empty (no stored
database version and no marker found in the repository contents), `run()`
aborts with the descriptive version error right after the clone, and no
templating, hook-install, git-add or git-commit call occurs. -/
theorem C2_version_failure_aborts (e : Env)
    (h : pyTruthy (resolveVersion e) = false) :
    run e = ([Event.clone], some (Err.commandError (noVersionMsg e))) ∧
    ∀ ev ∈ (run e).1, ev.isTemplating = false ∧ ev.isHookInstall = false ∧
      ev.isGitWrite = false := by
  refine ⟨run_version_falsy e h, ?_⟩
  rw [run_version_falsy e h]
  intro ev hev
  simp at hev
  subst hev
  exact ⟨rfl, rfl, rfl⟩

theorem C2_version_failure_aborts_witness :
    pyTruthy (resolveVersion c2Env) = false ∧
    (run c2Env = ([Event.clone], some (Err.commandError (noVersionMsg c2Env))) ∧
      ∀ ev ∈ (run c2Env).1, ev.isTemplating = false ∧ ev.isHookInstall = false ∧
        ev.isGitWrite = false) :=
  ⟨by decide, C2_version_failure_aborts c2Env (by decide)⟩

/-- Claim C3: a failure of the stash acquisition, or an undeterminable
version, prevents the git add and git commit calls from ever being
reached. -/
theorem C3_stash_or_version_failure_prevents_commit (e : Env)
    (h : e.stashAcquireFails = true ∨ pyTruthy (resolveVersion e) = false) :
    ∀ ev ∈ (run e).1, ev.isGitWrite = false := by
  rcases h with h | h
  · cases hv : resolveVersion e with
    | none =>
      rw [run_version_falsy e (by rw [hv]; rfl)]
      intro ev hev
      simp at hev
      subst hev
      rfl
    | some v =>
      by_cases hv0 : v = ""
      · rw [run_version_falsy e (by rw [hv, hv0]; rfl)]
        intro ev hev
        simp at hev
        subst hev
        rfl
      · by_cases hr : e.repoHandlePresent
        · rw [run_stash_fails e v hv hv0 hr h]
          intro ev hev
          simp at hev
          subst hev
          rfl
        · rw [run_no_handle e v hv hv0 (by simpa using hr)]
          intro ev hev
          simp at hev
          subst hev
          rfl
  · rw [run_version_falsy e h]
    intro ev hev
    simp at hev
    subst hev
    rfl

theorem C3_stash_or_version_failure_prevents_commit_witness :
    (c3Env.stashAcquireFails = true ∨ pyTruthy (resolveVersion c3Env) = false) ∧
    ∀ ev ∈ (run c3Env).1, ev.isGitWrite = false :=
  ⟨Or.inl (by decide),
   C3_stash_or_version_failure_prevents_commit c3Env (Or.inl (by decide))⟩

/-- Claim C4: supplying both a database and an explicit repository
argument, or a database without a linked repository and no explicit
repository argument, fails with a configuration error before any side
effect — the trace of external calls is empty. -/
theorem C4_selector_misconfig_no_side_effects (e : Env)
    (h : (e.database.isSome = true ∧ pyTruthy e.argsRepository = true) ∨
         (∃ db, e.database = some db ∧ pyTruthy e.argsRepository = false ∧
           db.repository = none)) :
    (fullRun e).1 = [] ∧ ∃ m, (fullRun e).2 = some (Err.commandError m) := by
  unfold fullRun initCheck
  rcases h with ⟨hd, ha⟩ | ⟨db, hd, ha, hl⟩
  · cases hdb : e.database with
    | none => rw [hdb] at hd; simp at hd
    | some db =>
      have hx : exactlyOneSelector e = false := by
        unfold exactlyOneSelector
        simp [hdb, ha]
      simp [hx]
  · have hx : exactlyOneSelector e = true := by
      unfold exactlyOneSelector
      simp [hd, ha]
    simp [hx, hd, ha, hl]

theorem C4_selector_misconfig_no_side_effects_witness :
    ((c4Env.database.isSome = true ∧ pyTruthy c4Env.argsRepository = true) ∨
      (∃ db, c4Env.database = some db ∧ pyTruthy c4Env.argsRepository = false ∧
        db.repository = none)) ∧
    ((fullRun c4Env).1 = [] ∧ ∃ m, (fullRun c4Env).2 = some (Err.commandError m)) :=
  ⟨Or.inl ⟨by decide, by decide⟩,
   C4_selector_misconfig_no_side_effects c4Env (Or.inl ⟨by decide, by decide⟩)⟩

/-- Claim C5 counterexample: a repository that is not yet cloned takes the
Update branch, not the Fresh-install branch, when its clone brings a
committed answers file along — `_is_fresh_install` checks existence only
at call time, which is always true after the clone, so only the answers
file decides the branch. -/
theorem C5_counterexample_clone_brings_answers :
    c5Env.existsBeforeRun = false ∧
    resolveVersion c5Env = some "17.0" ∧
    (∀ ev ∈ (run c5Env).1, ev.isRunCopy = false) ∧
    Event.runUpdate (copier_params c5Env "17.0") COPIER_ANSWERS_FILE true ∈ (run c5Env).1 := by
  refine ⟨rfl, rfl, ?_, ?_⟩
  · decide
  · decide

/-- Claim C5 (amended): for every run on a repository that, after the
idempotent clone, has no answers file at its root, the workflow selects
the Fresh-install branch and calls the interactive copy from the remote
template source with the resolved version as template data, overwrite
enabled, the script-permitting copier mode enabled, and defaults=false;
the non-interactive update is never called. -/
theorem C5_fresh_branch_interactive_copy (e : Env) (v : String)
    (hv : resolveVersion e = some v) (hne : v ≠ "")
    (hr : e.repoHandlePresent = true) (hs : e.stashAcquireFails = false)
    (ha : e.answersFileAfterClone = false) :
    Event.runCopy ("gh:" ++ PRE_COMMIT_REPOSITORY)
      { dst_path := e.repoPath, quiet := e.logLevel != "DEBUG", overwrite := true,
        data := [("odoo_version", v)], allowScripts := true } false ∈ (run e).1 ∧
    ∀ ev ∈ (run e).1, ev.isRunUpdate = false := by
  rw [run_reach_templating e v hv hne hr hs]
  have hcall : templCall e v =
      Event.runCopy ("gh:" ++ PRE_COMMIT_REPOSITORY) (copier_params e v) false := by
    unfold templCall
    simp [is_fresh_install, existsAfterClone, ha]
  constructor
  · rw [hcall]
    exact List.mem_cons_of_mem _ (List.mem_cons_of_mem _ (List.mem_cons_self _ _))
  · intro ev hev
    simp only [List.mem_cons] at hev
    rcases hev with rfl | rfl | rfl | rfl | hev
    · rfl
    · rfl
    · rw [hcall]; rfl
    · rfl
    · exact not_runUpdate_of_not_templating ev (postStash_only_hook_and_git e v ev hev).1

theorem C5_fresh_branch_interactive_copy_witness :
    (resolveVersion c5aEnv = some "17.0" ∧ "17.0" ≠ "" ∧
      c5aEnv.repoHandlePresent = true ∧ c5aEnv.stashAcquireFails = false ∧
      c5aEnv.answersFileAfterClone = false) ∧
    (Event.runCopy ("gh:" ++ PRE_COMMIT_REPOSITORY)
      { dst_path := c5aEnv.repoPath, quiet := c5aEnv.logLevel != "DEBUG", overwrite := true,
        data := [("odoo_version", "17.0")], allowScripts := true } false ∈ (run c5aEnv).1 ∧
      ∀ ev ∈ (run c5aEnv).1, ev.isRunUpdate = false) :=
  ⟨⟨by decide, by decide, by decide, by decide, by decide⟩,
   C5_fresh_branch_interactive_copy c5aEnv "17.0" (by decide) (by decide) (by decide)
     (by decide) (by decide)⟩

/-- Claim C6: on an already-cloned repository whose root holds the answers
file, the workflow takes the Update branch: it calls the non-interactive
`run_update` driven by the answers file with defaults=true, never calls
the interactive copy, and (when the templating and hook steps succeed)
commits with a message starting with the Update verb. -/
theorem C6_update_branch_noninteractive (e : Env) (v : String)
    (hv : resolveVersion e = some v) (hne : v ≠ "")
    (hr : e.repoHandlePresent = true) (hs : e.stashAcquireFails = false)
    (ha : e.answersFileAfterClone = true)
    (ht : e.templatingFails = false) (hh : e.hookInstallFails = false) :
    Event.runUpdate
      { dst_path := e.repoPath, quiet := e.logLevel != "DEBUG", overwrite := true,
        data := [("odoo_version", v)], allowScripts := true }
      COPIER_ANSWERS_FILE true ∈ (run e).1 ∧
    (∀ ev ∈ (run e).1, ev.isRunCopy = false) ∧
    Event.gitCommit (commit_message false v) ∈ (run e).1 ∧
    ∃ rest, commit_message false v = "[IMP] Update" ++ rest := by
  rw [run_reach_templating e v hv hne hr hs]
  have hcall : templCall e v =
      Event.runUpdate (copier_params e v) COPIER_ANSWERS_FILE true := by
    unfold templCall
    simp [is_fresh_install, existsAfterClone, ha]
  have hfreshc : is_fresh_install (existsAfterClone e) (answersAfterTemplating e) = false := by
    simp [answersAfterTemplating, is_fresh_install, existsAfterClone, ha]
  have hpost : postStashTrace e v =
      [Event.installHooksCall hookCommand, Event.gitAdd ".",
       Event.gitCommit (commit_message false v)] := by
    unfold postStashTrace
    rw [hfreshc]
    simp [ht, hh]
  refine ⟨?_, ?_, ?_, ?_⟩
  · rw [hcall]
    exact List.mem_cons_of_mem _ (List.mem_cons_of_mem _ (List.mem_cons_self _ _))
  · intro ev hev
    simp only [List.mem_cons] at hev
    rcases hev with rfl | rfl | rfl | rfl | hev
    · rfl
    · rfl
    · rw [hcall]; rfl
    · rfl
    · exact not_runCopy_of_not_templating ev (postStash_only_hook_and_git e v ev hev).1
  · rw [hpost]
    simp
  · obtain ⟨rest, hrx⟩ := commit_message_head false v
    exact ⟨rest, by simpa using hrx⟩

theorem C6_update_branch_noninteractive_witness :
    (resolveVersion baseEnv = some "17.0" ∧ "17.0" ≠ "" ∧
      baseEnv.repoHandlePresent = true ∧ baseEnv.stashAcquireFails = false ∧
      baseEnv.answersFileAfterClone = true ∧ baseEnv.templatingFails = false ∧
      baseEnv.hookInstallFails = false) ∧
    (Event.runUpdate
      { dst_path := baseEnv.repoPath, quiet := baseEnv.logLevel != "DEBUG", overwrite := true,
        data := [("odoo_version", "17.0")], allowScripts := true }
      COPIER_ANSWERS_FILE true ∈ (run baseEnv).1 ∧
      (∀ ev ∈ (run baseEnv).1, ev.isRunCopy = false) ∧
      Event.gitCommit (commit_message false "17.0") ∈ (run baseEnv).1 ∧
      ∃ rest, commit_message false "17.0" = "[IMP] Update" ++ rest) :=
  ⟨⟨by decide, by decide, by decide, by decide, by decide, by decide, by decide⟩,
   C6_update_branch_noninteractive baseEnv "17.0" (by decide) (by decide) (by decide)
     (by decide) (by decide) (by decide) (by decide)⟩

/-- Claim C7: when the hook-install invocation fails, no git add or git
commit call occurs, and the error reported for the run is the command
error whose message appends the captured stderr of the tool — the stderr
text is contained in the message. -/
theorem C7_hook_failure_no_commit (e : Env) (v : String)
    (hv : resolveVersion e = some v) (hne : v ≠ "")
    (hr : e.repoHandlePresent = true) (hs : e.stashAcquireFails = false)
    (ht : e.templatingFails = false) (hh : e.hookInstallFails = true) :
    (∀ ev ∈ (run e).1, ev.isGitWrite = false) ∧
    (run e).2 = some (Err.commandError
      ("Failed to install pre-commit hooks:\n" ++ e.hookStderr)) ∧
    ∃ p q, "Failed to install pre-commit hooks:\n" ++ e.hookStderr =
      p ++ e.hookStderr ++ q := by
  rw [run_reach_templating e v hv hne hr hs]
  have hpost : postStashTrace e v = [Event.installHooksCall hookCommand] := by
    unfold postStashTrace
    simp [ht, hh]
  refine ⟨?_, ?_, ?_⟩
  · intro ev hev
    simp only [hpost, List.mem_cons] at hev
    rcases hev with rfl | rfl | rfl | rfl | hev
    · rfl
    · rfl
    · unfold templCall
      by_cases hf : is_fresh_install (existsAfterClone e) e.answersFileAfterClone
      · simp [hf]; rfl
      · simp [hf]; rfl
    · rfl
    · simp at hev
      subst hev
      rfl
  · unfold templOutcome
    simp [ht, hh]
  · exact ⟨"Failed to install pre-commit hooks:\n", "",
      by rw [String.append_empty]⟩

theorem C7_hook_failure_no_commit_witness :
    (resolveVersion c7Env = some "17.0" ∧ "17.0" ≠ "" ∧
      c7Env.repoHandlePresent = true ∧ c7Env.stashAcquireFails = false ∧
      c7Env.templatingFails = false ∧ c7Env.hookInstallFails = true) ∧
    ((∀ ev ∈ (run c7Env).1, ev.isGitWrite = false) ∧
      (run c7Env).2 = some (Err.commandError
        ("Failed to install pre-commit hooks:\n" ++ c7Env.hookStderr)) ∧
      ∃ p q, "Failed to install pre-commit hooks:\n" ++ c7Env.hookStderr =
        p ++ c7Env.hookStderr ++ q) :=
  ⟨⟨by decide, by decide, by decide, by decide, by decide, by decide⟩,
   C7_hook_failure_no_commit c7Env "17.0" (by decide) (by decide) (by decide)
     (by decide) (by decide) (by decide)⟩

/-- Claim C8: whenever the templating step executes, the stash is acquired
immediately before the single templating call and released immediately
after it on every exit path — including when the templating call raises,
in which case nothing follows the release. Every event after the release
is a hook-install or git call: hook installation and the commit happen
outside the stash scope. -/
theorem C8_stash_scopes_templating (e : Env) (v : String)
    (hv : resolveVersion e = some v) (hne : v ≠ "")
    (hr : e.repoHandlePresent = true) (hs : e.stashAcquireFails = false) :
    ∃ call rest,
      (run e).1 = [Event.clone, Event.stashAcquire, call, Event.stashRelease] ++ rest ∧
      call.isTemplating = true ∧
      (∀ ev ∈ rest, ev.isTemplating = false ∧ ev.isStash = false ∧
        (ev.isHookInstall = true ∨ ev.isGitWrite = true)) ∧
      (e.templatingFails = true → rest = [] ∧
        (run e).2 = some (Err.externalFailure "templating")) := by
  refine ⟨templCall e v, postStashTrace e v, ?_, ?_, postStash_only_hook_and_git e v, ?_⟩
  · rw [run_reach_templating e v hv hne hr hs]
    rfl
  · unfold templCall
    by_cases hf : is_fresh_install (existsAfterClone e) e.answersFileAfterClone
    · simp [hf]; rfl
    · simp [hf]; rfl
  · intro ht
    constructor
    · unfold postStashTrace
      simp [ht]
    · rw [run_reach_templating e v hv hne hr hs]
      unfold templOutcome
      simp [ht]

theorem C8_stash_scopes_templating_witness :
    (resolveVersion c8Env = some "17.0" ∧ "17.0" ≠ "" ∧
      c8Env.repoHandlePresent = true ∧ c8Env.stashAcquireFails = false) ∧
    (∃ call rest,
      (run c8Env).1 = [Event.clone, Event.stashAcquire, call, Event.stashRelease] ++ rest ∧
      call.isTemplating = true ∧
      (∀ ev ∈ rest, ev.isTemplating = false ∧ ev.isStash = false ∧
        (ev.isHookInstall = true ∨ ev.isGitWrite = true)) ∧
      (c8Env.templatingFails = true → rest = [] ∧
        (run c8Env).2 = some (Err.externalFailure "templating"))) :=
  ⟨⟨by decide, by decide, by decide, by decide⟩,
   C8_stash_scopes_templating c8Env "17.0" (by decide) (by decide) (by decide) (by decide)⟩

/-- Claim C9: every templating call of any run carries the shared base
parameters: destination the repository path, quiet exactly when the log
level is not DEBUG, overwrite enabled, data mapping odoo_version to the
stringified resolved version, and the script-permitting copier flag
enabled — for the update branch just as for the fresh-install branch; the
copy additionally uses the remote template source and defaults=false, the
update the answers file and defaults=true. -/
theorem C9_shared_copier_params (e : Env) (v : String)
    (hv : resolveVersion e = some v) (hne : v ≠ "") :
    ∀ ev ∈ (run e).1,
      (∀ src p d, ev = Event.runCopy src p d →
        src = "gh:" ++ PRE_COMMIT_REPOSITORY ∧
        p = { dst_path := e.repoPath, quiet := e.logLevel != "DEBUG", overwrite := true,
              data := [("odoo_version", v)], allowScripts := true } ∧
        d = false) ∧
      (∀ p af d, ev = Event.runUpdate p af d →
        p = { dst_path := e.repoPath, quiet := e.logLevel != "DEBUG", overwrite := true,
              data := [("odoo_version", v)], allowScripts := true } ∧
        af = COPIER_ANSWERS_FILE ∧ d = true) := by
  by_cases hr : e.repoHandlePresent
  · by_cases hs : e.stashAcquireFails
    · rw [run_stash_fails e v hv hne hr hs]
      intro ev hev
      simp at hev
      subst hev
      constructor
      · intro src p d hEq; simp at hEq
      · intro p af d hEq; simp at hEq
    · rw [run_reach_templating e v hv hne (by simpa using hr) (by simpa using hs)]
      intro ev hev
      simp only [List.mem_cons] at hev
      rcases hev with rfl | rfl | rfl | rfl | hev
      · constructor
        · intro src p d hEq; simp at hEq
        · intro p af d hEq; simp at hEq
      · constructor
        · intro src p d hEq; simp at hEq
        · intro p af d hEq; simp at hEq
      · unfold templCall
        by_cases hf : is_fresh_install (existsAfterClone e) e.answersFileAfterClone
        · simp only [hf, if_true]
          constructor
          · intro src p d hEq
            obtain ⟨h1, h2, h3⟩ := Event.runCopy.inj hEq.symm
            exact ⟨h1, by rw [h2]; rfl, h3⟩
          · intro p af d hEq; simp at hEq
        · simp only [hf, if_false]
          constructor
          · intro src p d hEq; simp at hEq
          · intro p af d hEq
            obtain ⟨h1, h2, h3⟩ := Event.runUpdate.inj hEq.symm
            exact ⟨by rw [h1]; rfl, h2, h3⟩
      · constructor
        · intro src p d hEq; simp at hEq
        · intro p af d hEq; simp at hEq
      · have h3 := (postStash_only_hook_and_git e v ev hev).1
        constructor
        · intro src p d hEq
          subst hEq
          simp [Event.isTemplating] at h3
        · intro p af d hEq
          subst hEq
          simp [Event.isTemplating] at h3
  · rw [run_no_handle e v hv hne (by simpa using hr)]
    intro ev hev
    simp at hev
    subst hev
    constructor
    · intro src p d hEq; simp at hEq
    · intro p af d hEq; simp at hEq

theorem C9_shared_copier_params_witness :
    (resolveVersion c9Env = some "17.0" ∧ "17.0" ≠ "") ∧
    ∀ ev ∈ (run c9Env).1,
      (∀ src p d, ev = Event.runCopy src p d →
        src = "gh:" ++ PRE_COMMIT_REPOSITORY ∧
        p = { dst_path := c9Env.repoPath, quiet := c9Env.logLevel != "DEBUG",
              overwrite := true, data := [("odoo_version", "17.0")],
              allowScripts := true } ∧
        d = false) ∧
      (∀ p af d, ev = Event.runUpdate p af d →
        p = { dst_path := c9Env.repoPath, quiet := c9Env.logLevel != "DEBUG",
              overwrite := true, data := [("odoo_version", "17.0")],
              allowScripts := true } ∧
        af = COPIER_ANSWERS_FILE ∧ d = true) :=
  ⟨⟨by decide, by decide⟩,
   C9_shared_copier_params c9Env "17.0" (by decide) (by decide)⟩

/-- Claim C10: in every invocation, the assertion on the version-control
handle in `_commit_changes` can never fail: `_copy_config` always runs
earlier and aborts with the "Ignoring non-existing repository" command
error whenever the handle is absent, so the assertion branch is
unreachable and no run ends in an assertion failure. -/
theorem C10_commit_assertion_unreachable (e : Env) :
    isAssertionFailure (fullRun e).2 = false := by
  unfold fullRun
  cases hi : initCheck e with
  | some err =>
    cases hi2 : err with
    | commandError m => rfl
    | externalFailure o => rfl
    | assertionFailure =>
      subst hi2
      unfold initCheck at hi
      by_cases hx : exactlyOneSelector e
      · simp [hx] at hi
        cases hd : e.database with
        | none => rw [hd] at hi; simp at hi
        | some db =>
          rw [hd] at hi
          by_cases hl : !(pyTruthy e.argsRepository) && db.repository.isNone
          · simp [hl] at hi
          · simp [hl] at hi
      · simp [hx] at hi
  | none =>
    cases hv : resolveVersion e with
    | none => rw [run_version_falsy e (by rw [hv]; rfl)]; rfl
    | some v =>
      by_cases hv0 : v = ""
      · rw [run_version_falsy e (by rw [hv, hv0]; rfl)]; rfl
      · by_cases hr : e.repoHandlePresent
        · by_cases hs : e.stashAcquireFails
          · rw [run_stash_fails e v hv hv0 hr hs]; rfl
          · rw [run_reach_templating e v hv hv0 hr (by simpa using hs)]
            unfold templOutcome
            by_cases ht : e.templatingFails
            · simp [ht, isAssertionFailure]
            · by_cases hh : e.hookInstallFails
              · simp [ht, hh, isAssertionFailure]
              · by_cases hc : e.commitFails
                · simp [ht, hh, hc, isAssertionFailure]
                · simp [ht, hh, hc, isAssertionFailure]
        · rw [run_no_handle e v hv hv0 (by simpa using hr)]; rfl

theorem C10_commit_assertion_unreachable_witness :
    isAssertionFailure (fullRun c10Env).2 = false :=
  C10_commit_assertion_unreachable c10Env

end PreCommitCmd
